import Mathlib

/-!
Verification development for the Strings repository: a shallow embedding of
the security-check CLI (scripts/security_check.py), the agent workflow
declarations (src/agents/workflows.py, evaluator_optimizer.py, core.py,
settings.py, specification.py), plus the workflow-orchestration behavior
those declarations rely on, modelled from the design specification where the
executing code lives in an external framework.
-/

namespace SecurityCheck

/-- Result of a completed subprocess: return code, captured stdout and stderr.
Mirrors the fields of subprocess.CompletedProcess used by security_check.py. -/
structure ProcResult where
  returncode : Int
  stdout : String
  stderr : String
  deriving DecidableEq

/-- The ambient system: which program names resolve on PATH, and the result a
resolvable command produces. A command whose program name is not on PATH
raises FileNotFoundError, modelled as the none case of subprocessRun. -/
structure SysEnv where
  onPath : String → Bool
  runResult : List String → ProcResult

/-- Observable actions of the script: printing a line and spawning a process. -/
inductive Event where
  | print (s : String)
  | invoke (cmd : List String)
  deriving DecidableEq

/-- subprocess.run with check=False: none models FileNotFoundError (program
name absent from PATH), some r models a completed process. -/
def subprocessRun (env : SysEnv) (cmd : List String) : Option ProcResult :=
  if env.onPath (cmd.headD "") then some (env.runResult cmd) else none

/-- The argv of the prospector invocation in run_prospector; sys.executable is
modelled as the program name python. -/
def prospectorCmd : List String :=
  ["python", "-m", "prospector", "--tool", "pylint", "--tool", "pycodestyle",
   "--tool", "mccabe", "--output-format", "json", "--max-line-length", "100"]

/-- The argv of the opengrep invocation in run_opengrep. -/
def opengrepCmd : List String := ["opengrep", "--config", "opengrep.yaml"]

/-- run_prospector from security_check.py: prints a banner, runs the tool,
returns False on FileNotFoundError or nonzero return code (printing stdout and,
when nonempty, stderr), True otherwise. -/
def run_prospector (env : SysEnv) : Bool × List Event :=
  let pre := [Event.print "Running prospector for static code analysis...",
              Event.invoke prospectorCmd]
  match subprocessRun env prospectorCmd with
  | none =>
      (false, pre ++ [Event.print "Prospector not found. Install with: pip install prospector"])
  | some r =>
      if r.returncode ≠ 0 then
        (false, pre ++ [Event.print "Prospector found issues:", Event.print r.stdout]
          ++ (if r.stderr ≠ "" then [Event.print r.stderr] else []))
      else
        (true, pre ++ [Event.print "Prospector passed"])

/-- run_opengrep from security_check.py, structured exactly like run_prospector. -/
def run_opengrep (env : SysEnv) : Bool × List Event :=
  let pre := [Event.print "Running opengrep for security analysis...",
              Event.invoke opengrepCmd]
  match subprocessRun env opengrepCmd with
  | none =>
      (false, pre ++ [Event.print "OpenGrep not found. Install with: pip install opengrep"])
  | some r =>
      if r.returncode ≠ 0 then
        (false, pre ++ [Event.print "OpenGrep found security issues:", Event.print r.stdout]
          ++ (if r.stderr ≠ "" then [Event.print r.stderr] else []))
      else
        (true, pre ++ [Event.print "OpenGrep security scan passed"])

/-- The dependency list checked by check_dependencies. -/
def depsList : List String := ["prospector", "opengrep"]

/-- check_dependencies from security_check.py: probes each dependency with a
help invocation, collects the ones raising FileNotFoundError, and fails when
any are missing. -/
def check_dependencies (env : SysEnv) : Bool × List Event :=
  let evs := depsList.map (fun dep => Event.invoke [dep, "--help"])
  let missing := depsList.filter (fun dep => (subprocessRun env [dep, "--help"]).isNone)
  if missing ≠ [] then
    (false, evs ++ [Event.print ("Missing dependencies: " ++ String.intercalate ", " missing),
                    Event.print ("Install with: pip install " ++ String.intercalate " " missing)])
  else
    (true, evs)

/-- main from security_check.py: returns the process exit code together with
the ordered trace of prints and subprocess invocations. -/
def security_main (env : SysEnv) : Int × List Event :=
  let start := [Event.print "Starting custom security checks..."]
  let deps := check_dependencies env
  if deps.1 = false then
    (1, start ++ deps.2)
  else
    let p := run_prospector env
    let o := run_opengrep env
    if p.1 && o.1 then
      (0, start ++ deps.2 ++ p.2 ++ o.2 ++ [Event.print "All security checks passed!"])
    else
      (1, start ++ deps.2 ++ p.2 ++ o.2 ++ [Event.print "Some security checks failed!"])

/-- The subprocess invocations of a trace, in order. -/
def invocations : List Event → List (List String)
  | [] => []
  | Event.invoke c :: rest => c :: invocations rest
  | Event.print _ :: rest => invocations rest

/-- True when the command runs to completion with return code 0. -/
def toolExitZero (env : SysEnv) (cmd : List String) : Bool :=
  match subprocessRun env cmd with
  | some r => r.returncode == 0
  | none => false

end SecurityCheck

namespace Agents

/-- The fixed ordinal rating scale of the evaluator-optimizer design:
POOR < FAIR < GOOD < EXCELLENT. The quality_evaluator instruction in
evaluator_optimizer.py names exactly these four values. -/
inductive Rating where
  | POOR
  | FAIR
  | GOOD
  | EXCELLENT
  deriving DecidableEq

/-- Ordinal position of a rating on the fixed scale. -/
def Rating.ord : Rating → Nat
  | .POOR => 0
  | .FAIR => 1
  | .GOOD => 2
  | .EXCELLENT => 3

/-- EvaluatorOptimizerSpec: the declared configuration of an
evaluator-optimizer workflow (name, generator and evaluator agent names,
minimum acceptable rating, refinement budget). -/
structure EvaluatorOptimizerSpec where
  name : String
  generator : String
  evaluator : String
  min_rating : Rating
  max_refinements : Nat

/-- The documentation_system workflow declared in evaluator_optimizer.py:
generator content_generator, evaluator quality_evaluator,
min_rating EXCELLENT, max_refinements 3. -/
def documentation_system : EvaluatorOptimizerSpec where
  name := "documentation_system"
  generator := "content_generator"
  evaluator := "quality_evaluator"
  min_rating := .EXCELLENT
  max_refinements := 3

/-- Terminal states of the evaluator-optimizer loop, each carrying the
returned candidate and its rating. -/
inductive LoopOutcome where
  | Completed (candidate : String) (rating : Rating)
  | BudgetExhausted (candidate : String) (rating : Rating)
  deriving DecidableEq

/-- Best-candidate tracking on the ordinal scale, ties broken toward the most
recent candidate: the new candidate replaces the best when its rating is at
least the best rating so far. -/
def updateBest (best : Option (String × Rating)) (cand : String) (r : Rating) :
    String × Rating :=
  match best with
  | none => (cand, r)
  | some b => if b.2.ord ≤ r.ord then (cand, r) else b

/-- Modelled from the spec: the evaluator-optimizer loop body executed by the
external framework for the declarations in evaluator_optimizer.py (the loop
implementation is not part of this repository). One call generates a candidate
from the input plus the pending feedback, evaluates it, completes when the
rating reaches the minimum, exhausts the budget when no refinements remain
(returning the best-rated candidate seen, ties toward the most recent), and
otherwise refines with the feedback injected. The first argument is the number
of refinement rounds still allowed; the result pairs the terminal state with
the index of the final generation round. -/
def runLoop (gen : String → Option String → String)
    (evalr : String → Rating × String) (minRating : Rating) (input : String) :
    Nat → Nat → Option String → Option (String × Rating) → LoopOutcome × Nat
  | 0, round, feedback, best =>
      let cand := gen input feedback
      let re := evalr cand
      if minRating.ord ≤ re.1.ord then (.Completed cand re.1, round)
      else
        let best2 := updateBest best cand re.1
        (.BudgetExhausted best2.1 best2.2, round)
  | n + 1, round, feedback, best =>
      let cand := gen input feedback
      let re := evalr cand
      if minRating.ord ≤ re.1.ord then (.Completed cand re.1, round)
      else
        let best2 := updateBest best cand re.1
        runLoop gen evalr minRating input n (round + 1) (some re.2) (some best2)

/-- Modelled from the spec: running an evaluator-optimizer workflow on an
input. Round 0 generates from the input alone; each later round injects the
feedback of the previous evaluation. Returns the terminal state and the index
of the final generation round (so the number of generation rounds performed is
that index plus one, and the number of refinements equals that index). -/
def evaluatorOptimizer (gen : String → Option String → String)
    (evalr : String → Rating × String) (spec : EvaluatorOptimizerSpec)
    (input : String) : LoopOutcome × Nat :=
  runLoop gen evalr spec.min_rating input spec.max_refinements 0 none none

/-- The candidate produced at each round by a fixed generator and evaluator:
round 0 from the input alone, round n + 1 from the input plus the feedback on
the round-n candidate. -/
def candidateAt (gen : String → Option String → String)
    (evalr : String → Rating × String) (input : String) : Nat → String
  | 0 => gen input none
  | n + 1 => gen input (some (evalr (candidateAt gen evalr input n)).2)

/-- ChainSpec: a declared chain workflow (name, ordered agent sequence,
cumulative flag). -/
structure ChainSpec where
  name : String
  sequence : List String
  cumulative : Bool

/-- Agent-name constant FETCHER from workflows.py. -/
def FETCHER : String := "url_fetcher"

/-- Agent-name constant ANALYZER from workflows.py. -/
def ANALYZER : String := "content_analyzer"

/-- Agent-name constant SUMMARIZER from workflows.py. -/
def SUMMARIZER : String := "summarizer"

/-- The content_pipeline chain declared in workflows.py: sequence
url_fetcher, content_analyzer, summarizer, cumulative true. -/
def content_pipeline : ChainSpec where
  name := "content_pipeline"
  sequence := [FETCHER, ANALYZER, SUMMARIZER]
  cumulative := true

/-- One executed chain step: the agent invoked, the input it received, the
output it produced. -/
structure Step where
  agent : String
  stepInput : String
  output : String
  deriving DecidableEq

/-- Concatenation of a list of strings in order. -/
def concatAll : List String → String
  | [] => ""
  | s :: rest => s ++ concatAll rest

/-- Modelled from the spec: cumulative chain execution by the external
framework (the chain orchestrator is not part of this repository). The
context starts as the original input and each step appends its own output, so
every step receives the original input followed by all prior outputs in
declared order. Returns the executed steps in execution order. -/
def chainCum (agents : String → String → String) :
    List String → String → List Step
  | [], _ => []
  | a :: rest, ctx =>
      let out := agents a ctx
      ⟨a, ctx, out⟩ :: chainCum agents rest (ctx ++ out)

/-- Modelled from the spec: non-cumulative chain execution, where each step
receives only the output of the immediately preceding step. -/
def chainPiped (agents : String → String → String) :
    List String → String → List Step
  | [], _ => []
  | a :: rest, cur =>
      let out := agents a cur
      ⟨a, cur, out⟩ :: chainPiped agents rest out

/-- Modelled from the spec: running a declared chain on an input, threading
context cumulatively or step-to-step according to the cumulative flag. -/
def runChain (agents : String → String → String) (spec : ChainSpec)
    (input : String) : List Step :=
  if spec.cumulative then chainCum agents spec.sequence input
  else chainPiped agents spec.sequence input

/-- A scalar metadata value: string, int or float, the value types the
metadata field of AnalysisResult in core.py admits. -/
inductive MetaScalar where
  | s (v : String)
  | i (v : Int)
  | f (v : Rat)
  deriving DecidableEq

/-- A raw model response in structured form: the JSON-like shapes a response
may take before validation against a declared schema. Floats are modelled as
rationals, since the validator only inspects shape and never computes. -/
inductive JVal where
  | str (s : String)
  | int (n : Int)
  | float (q : Rat)
  | arr (xs : List JVal)
  | obj (fields : List (String × JVal))

/-- AnalysisResult from core.py: summary, confidence, recommendations,
metadata of scalars. -/
structure AnalysisResult where
  summary : String
  confidence : Rat
  recommendations : List String
  metadata : List (String × MetaScalar)

/-- First value bound to a key in a field list, or none when absent. -/
def lookupField (k : String) : List (String × JVal) → Option JVal
  | [] => none
  | kv :: rest => if kv.1 = k then some kv.2 else lookupField k rest

/-- Strict parse of a string field. -/
def parseStr : JVal → Option String
  | .str s => some s
  | _ => none

/-- Strict parse of a float field; an integer response value coerces. -/
def parseNum : JVal → Option Rat
  | .float q => some q
  | .int n => some (n : Rat)
  | _ => none

/-- Strict parse of a list-of-string field. -/
def parseStrList : JVal → Option (List String)
  | .arr xs => xs.mapM parseStr
  | _ => none

/-- Strict parse of a scalar metadata value. -/
def parseScalar : JVal → Option MetaScalar
  | .str s => some (.s s)
  | .int n => some (.i n)
  | .float q => some (.f q)
  | _ => none

/-- Strict parse of the metadata mapping. -/
def parseMetadata : JVal → Option (List (String × MetaScalar))
  | .obj fs => fs.mapM (fun kv => (parseScalar kv.2).map (fun sc => (kv.1, sc)))
  | _ => none

/-- Modelled from the spec: the structured-output validator of the external
framework, instantiated at the AnalysisResult schema declared in core.py. A
strict parse requires every declared field present with a coercible type; any
missing field or type mismatch yields none. -/
def parseAnalysisResult (raw : JVal) : Option AnalysisResult :=
  match raw with
  | .obj fields =>
      match lookupField "summary" fields, lookupField "confidence" fields,
            lookupField "recommendations" fields, lookupField "metadata" fields with
      | some sv, some cv, some rv, some mv =>
          match parseStr sv, parseNum cv, parseStrList rv, parseMetadata mv with
          | some s, some c, some r, some m =>
              some { summary := s, confidence := c, recommendations := r, metadata := m }
          | _, _, _, _ => none
      | _, _, _, _ => none
  | _ => none

/-- Modelled from the spec: the structured send operation used by main in
core.py. It always returns a pair of the parse result and the raw message:
on parse failure the structured component is none and the raw message is
passed through unchanged, and no exception escapes. -/
def structuredSend (raw : JVal) : Option AnalysisResult × JVal :=
  (parseAnalysisResult raw, raw)

/-- The values a configuration source (environment plus .env file) supplies
for each field of Settings in settings.py; none means the field is absent. -/
structure ConfigSource where
  anthropic_api_key : Option String
  openai_api_key : Option String
  default_model : Option String
  log_level : Option String
  server_host : Option String
  server_port : Option Int

/-- The validated Settings record of settings.py. -/
structure Settings where
  anthropic_api_key : String
  openai_api_key : Option String
  default_model : String
  log_level : String
  server_host : String
  server_port : Int
  deriving DecidableEq

/-- Modelled from the spec: eager construction and validation of the Settings
singleton at module import (settings.py builds it at module scope). The field
set and defaults are those declared in settings.py: anthropic_api_key is the
only field without a default, so its absence is the only way this validation
fails; every other field falls back to its declared default. -/
def loadSettings (src : ConfigSource) : Except String Settings :=
  match src.anthropic_api_key with
  | none => .error "validation error: anthropic_api_key missing"
  | some key =>
      .ok { anthropic_api_key := key
            openai_api_key := src.openai_api_key
            default_model := src.default_model.getD "anthropic.claude-sonnet-4-0"
            log_level := src.log_level.getD "INFO"
            server_host := src.server_host.getD "0.0.0.0"
            server_port := src.server_port.getD 8080 }

end Agents

namespace Specification

/-- The return type of SpecificationPhaseAgent.document_analysis in
specification.py. -/
structure DocumentAnalysis where
  key_objectives : List String
  functional_requirements : List String
  non_functional_requirements : List String
  target_personas : List String
  business_context : List String
  deriving DecidableEq

/-- The fixed placeholder dictionary that document_analysis returns. -/
def documentAnalysisStub : DocumentAnalysis where
  key_objectives := ["Objective 1", "Objective 2"]
  functional_requirements := ["Requirement 1", "Requirement 2"]
  non_functional_requirements := ["Performance requirement", "Security requirement"]
  target_personas := ["Persona 1", "Persona 2"]
  business_context := ["Constraint 1", "Constraint 2"]

/-- SpecificationPhaseAgent.document_analysis from specification.py: builds an
analysis prompt from the document, never sends it anywhere, and returns a
literal placeholder dictionary. -/
def document_analysis (document : String) : DocumentAnalysis :=
  let analysis_prompt :=
    "Analyze the following project document and extract key elements. Document: "
      ++ document
  let _ := analysis_prompt
  { key_objectives := ["Objective 1", "Objective 2"]
    functional_requirements := ["Requirement 1", "Requirement 2"]
    non_functional_requirements := ["Performance requirement", "Security requirement"]
    target_personas := ["Persona 1", "Persona 2"]
    business_context := ["Constraint 1", "Constraint 2"] }

/-- The visual-identity component of the design guidelines in
specification.py. -/
structure VisualIdentity where
  colors : List String
  typography : String
  iconography : String
  deriving DecidableEq

/-- The return type of SpecificationPhaseAgent.design_system_analyzer in
specification.py. -/
structure DesignGuidelines where
  design_principles : List String
  accessibility_standards : List String
  ui_components : List String
  visual_identity : VisualIdentity
  deriving DecidableEq

/-- The fixed placeholder dictionary that design_system_analyzer returns. -/
def designGuidelinesStub : DesignGuidelines where
  design_principles :=
    ["Principle 1", "Principle 2", "Principle 3", "Principle 4", "Principle 5"]
  accessibility_standards :=
    ["WCAG 2.1 level AA compliance", "Screen reader compatibility",
     "Keyboard navigation support"]
  ui_components := ["Component 1", "Component 2", "Component 3"]
  visual_identity :=
    { colors := ["Primary color", "Secondary color"]
      typography := "Typography system"
      iconography := "Icon system" }

/-- SpecificationPhaseAgent.design_system_analyzer from specification.py:
builds a design prompt from the requirements, never sends it anywhere, and
returns a literal placeholder dictionary. -/
def design_system_analyzer (project_requirements : String) : DesignGuidelines :=
  let design_prompt :=
    "Based on the following project requirements, suggest design guidelines. Project requirements: "
      ++ project_requirements
  let _ := design_prompt
  { design_principles :=
      ["Principle 1", "Principle 2", "Principle 3", "Principle 4", "Principle 5"]
    accessibility_standards :=
      ["WCAG 2.1 level AA compliance", "Screen reader compatibility",
       "Keyboard navigation support"]
    ui_components := ["Component 1", "Component 2", "Component 3"]
    visual_identity :=
      { colors := ["Primary color", "Secondary color"]
        typography := "Typography system"
        iconography := "Icon system" } }

end Specification

namespace Workflows

/-- The module-level names bound by the import statements of workflows.py:
from typing import Final, and the two framework imports. No import binds the
name asyncio. -/
def workflowsModuleImports : List String := ["Final", "FastAgent", "RequestParams"]

/-- The module-level names bound by assignments and the decorated function
definition in workflows.py. -/
def workflowsModuleDefs : List String :=
  ["fast", "FETCHER", "ANALYZER", "SUMMARIZER", "main"]

/-- All module-global names in scope when the main guard of workflows.py
executes. -/
def workflowsGlobalNames : List String := workflowsModuleImports ++ workflowsModuleDefs

/-- Outcome of executing the main guard of a module as a script. -/
inductive MainBlockResult where
  | nameError (missing : String)
  | workflowRan
  deriving DecidableEq

/-- The main guard of workflows.py, line 40: asyncio.run(main()). Python
resolves the name asyncio in module globals before evaluating anything else
on that line; when the lookup fails the statement raises NameError and no
workflow runs. asyncio is not a builtin, so only the module globals matter. -/
def runWorkflowsMainBlock : MainBlockResult :=
  if workflowsGlobalNames.contains "asyncio" then .workflowRan
  else .nameError "asyncio"

end Workflows

namespace SecurityCheck

/-- A system where every program is on PATH and every process exits 0. -/
def envAllOk : SysEnv where
  onPath := fun _ => true
  runResult := fun _ => ⟨0, "", ""⟩

/-- A system where no program is on PATH. -/
def envNoTools : SysEnv where
  onPath := fun _ => false
  runResult := fun _ => ⟨0, "", ""⟩

/-- A system where everything is on PATH but the prospector scan reports
issues with return code 1. -/
def envProspectorIssues : SysEnv where
  onPath := fun _ => true
  runResult := fun cmd =>
    if cmd = prospectorCmd then ⟨1, "PSTDOUT", "PSTDERR"⟩ else ⟨0, "", ""⟩

end SecurityCheck

namespace Agents

/-- A concrete generator: echoes the input followed by any feedback. -/
def genW : String → Option String → String := fun i fb => i ++ fb.getD ""

/-- A concrete evaluator that rates every candidate GOOD. -/
def evalGoodW : String → Rating × String := fun _ => (Rating.GOOD, "f")

/-- A concrete evaluator that rates every candidate EXCELLENT. -/
def evalExcW : String → Rating × String := fun c => (Rating.EXCELLENT, "fb" ++ c)

/-- Concrete chain agents: the fetcher outputs A, the analyzer B, and any
other agent C, regardless of input. -/
def chainAgentsW : String → String → String := fun name _ =>
  if name = FETCHER then "A" else if name = ANALYZER then "B" else "C"

/-- A field list for a raw response that lacks the confidence field. -/
def missingConfidenceFields : List (String × JVal) := [("summary", JVal.str "ok")]

/-- A configuration source supplying no values at all. -/
def srcNoKey : ConfigSource where
  anthropic_api_key := none
  openai_api_key := none
  default_model := none
  log_level := none
  server_host := none
  server_port := none

/-- A configuration source supplying only the required credential. -/
def srcOnlyKey : ConfigSource where
  anthropic_api_key := some "key"
  openai_api_key := none
  default_model := none
  log_level := none
  server_host := none
  server_port := none

end Agents

namespace SecurityCheck

/-- invocations distributes over trace concatenation. -/
theorem invocations_append (l1 l2 : List Event) :
    invocations (l1 ++ l2) = invocations l1 ++ invocations l2 := by
  induction l1 with
  | nil => rfl
  | cons e rest ih => cases e <;> simp [invocations, ih]

/-- check_dependencies always probes exactly the two dependency help commands,
in order, whether or not anything is missing. -/
theorem invocations_check_dependencies (env : SysEnv) :
    invocations (check_dependencies env).2 =
      [["prospector", "--help"], ["opengrep", "--help"]] := by
  simp only [check_dependencies]
  split <;> simp [invocations_append, invocations, depsList]

/-- run_prospector spawns exactly the prospector command, on every path. -/
theorem invocations_run_prospector (env : SysEnv) :
    invocations (run_prospector env).2 = [prospectorCmd] := by
  unfold run_prospector
  cases subprocessRun env prospectorCmd with
  | none => simp [invocations]
  | some r =>
      by_cases h0 : r.returncode = 0
      · simp [h0, invocations]
      · simp only [h0, if_true, if_false, ne_eq, not_false_eq_true, invocations_append]
        split <;> simp [invocations, invocations_append]

/-- run_opengrep spawns exactly the opengrep command, on every path. -/
theorem invocations_run_opengrep (env : SysEnv) :
    invocations (run_opengrep env).2 = [opengrepCmd] := by
  unfold run_opengrep
  cases subprocessRun env opengrepCmd with
  | none => simp [invocations]
  | some r =>
      by_cases h0 : r.returncode = 0
      · simp [h0, invocations]
      · simp only [h0, if_true, if_false, ne_eq, not_false_eq_true, invocations_append]
        split <;> simp [invocations, invocations_append]

/-- When the dependency check passes, main spawns the two dependency probes
followed by the prospector scan and then the opengrep scan, whatever the
scans return. -/
theorem invocations_security_main (env : SysEnv)
    (h : (check_dependencies env).1 = true) :
    invocations (security_main env).2 =
      [["prospector", "--help"], ["opengrep", "--help"], prospectorCmd, opengrepCmd] := by
  simp only [security_main, h]
  split
  · simp_all
  · split <;>
      simp [invocations_append, invocations, invocations_check_dependencies,
        invocations_run_prospector, invocations_run_opengrep]

/-- When the dependency check fails, main exits 1 and spawns only the two
dependency probes. -/
theorem security_main_deps_false (env : SysEnv)
    (h : (check_dependencies env).1 = false) :
    (security_main env).1 = 1 ∧
    invocations (security_main env).2 =
      [["prospector", "--help"], ["opengrep", "--help"]] := by
  unfold security_main
  simp [h, invocations_append, invocations, invocations_check_dependencies]

/-- The dependency check passes exactly when both tool binaries resolve. -/
theorem check_dependencies_true_iff (env : SysEnv) :
    (check_dependencies env).1 = true ↔
      env.onPath "prospector" = true ∧ env.onPath "opengrep" = true := by
  cases h1 : env.onPath "prospector" <;> cases h2 : env.onPath "opengrep" <;>
    simp [check_dependencies, subprocessRun, depsList, h1, h2]

/-- run_prospector reports success exactly when the scan ran and exited 0. -/
theorem run_prospector_true_iff (env : SysEnv) :
    (run_prospector env).1 = true ↔ toolExitZero env prospectorCmd = true := by
  unfold run_prospector toolExitZero
  cases subprocessRun env prospectorCmd with
  | none => simp
  | some r => by_cases h0 : r.returncode = 0 <;> simp [h0]

/-- run_opengrep reports success exactly when the scan ran and exited 0. -/
theorem run_opengrep_true_iff (env : SysEnv) :
    (run_opengrep env).1 = true ↔ toolExitZero env opengrepCmd = true := by
  unfold run_opengrep toolExitZero
  cases subprocessRun env opengrepCmd with
  | none => simp
  | some r => by_cases h0 : r.returncode = 0 <;> simp [h0]

/-- Under a passing dependency check, main exits 0 exactly when both scans
report success. -/
theorem security_main_exit_true_iff (env : SysEnv)
    (h : (check_dependencies env).1 = true) :
    ((security_main env).1 = 0 ↔
      (run_prospector env).1 = true ∧ (run_opengrep env).1 = true) := by
  unfold security_main
  cases hp : (run_prospector env).1 <;> cases ho : (run_opengrep env).1 <;>
    simp [h, hp, ho]

/-- main only ever exits 0 or 1. -/
theorem security_main_exit_zero_or_one (env : SysEnv) :
    (security_main env).1 = 0 ∨ (security_main env).1 = 1 := by
  simp only [security_main]
  split
  · simp
  · split <;> simp

/-- A failing prospector scan reports failure and prints its stdout, and its
stderr when nonempty. -/
theorem run_prospector_fail_trace (env : SysEnv) (r : ProcResult)
    (hr : subprocessRun env prospectorCmd = some r) (h0 : r.returncode ≠ 0) :
    (run_prospector env).1 = false
    ∧ Event.print r.stdout ∈ (run_prospector env).2
    ∧ (r.stderr ≠ "" → Event.print r.stderr ∈ (run_prospector env).2) := by
  unfold run_prospector
  rw [hr]
  refine ⟨by simp [h0], by simp [h0], fun hs => ?_⟩
  simp [h0, hs]

/-- A failing opengrep scan reports failure and prints its stdout, and its
stderr when nonempty. -/
theorem run_opengrep_fail_trace (env : SysEnv) (r : ProcResult)
    (hr : subprocessRun env opengrepCmd = some r) (h0 : r.returncode ≠ 0) :
    (run_opengrep env).1 = false
    ∧ Event.print r.stdout ∈ (run_opengrep env).2
    ∧ (r.stderr ≠ "" → Event.print r.stderr ∈ (run_opengrep env).2) := by
  unfold run_opengrep
  rw [hr]
  refine ⟨by simp [h0], by simp [h0], fun hs => ?_⟩
  simp [h0, hs]

/-- Under a passing dependency check, everything the prospector step emits
appears in the main trace. -/
theorem mem_security_main_of_prospector (env : SysEnv)
    (h : (check_dependencies env).1 = true) (e : Event)
    (he : e ∈ (run_prospector env).2) : e ∈ (security_main env).2 := by
  simp only [security_main, h]
  split
  · simp_all
  · split <;> simp [he]

/-- Under a passing dependency check, everything the opengrep step emits
appears in the main trace. -/
theorem mem_security_main_of_opengrep (env : SysEnv)
    (h : (check_dependencies env).1 = true) (e : Event)
    (he : e ∈ (run_opengrep env).2) : e ∈ (security_main env).2 := by
  simp only [security_main, h]
  split
  · simp_all
  · split <;> simp [he]

/-- A failed prospector step forces exit code 1. -/
theorem security_main_exit_one_of_prospector_false (env : SysEnv)
    (h : (check_dependencies env).1 = true)
    (hp : (run_prospector env).1 = false) : (security_main env).1 = 1 := by
  unfold security_main
  simp [h, hp]

/-- A failed opengrep step forces exit code 1. -/
theorem security_main_exit_one_of_opengrep_false (env : SysEnv)
    (h : (check_dependencies env).1 = true)
    (ho : (run_opengrep env).1 = false) : (security_main env).1 = 1 := by
  unfold security_main
  simp [h, ho]

end SecurityCheck

namespace Agents

/-- Splitting a cumulative chain trace anywhere: the step at the split point
received the starting context followed by the outputs of all steps before it,
in order. -/
theorem chainCum_split (agents : String → String → String) (seq : List String) :
    ∀ (ctx : String) (pre : List Step) (st : Step) (post : List Step),
      chainCum agents seq ctx = pre ++ st :: post →
      st.stepInput = ctx ++ concatAll (pre.map Step.output) := by
  induction seq with
  | nil => intro ctx pre st post h; simp [chainCum] at h
  | cons a rest ih =>
      intro ctx pre st post h
      simp only [chainCum] at h
      cases pre with
      | nil =>
          simp only [List.nil_append, List.cons.injEq] at h
          rw [← h.1]
          simp [concatAll, String.append_empty]
      | cons p ps =>
          simp only [List.cons_append, List.cons.injEq] at h
          have hps := ih (ctx ++ agents a ctx) ps st post h.2
          rw [hps, ← h.1]
          simp [concatAll, String.append_assoc]

/-- A cumulative chain invokes exactly the declared sequence of agents. -/
theorem chainCum_map_agent (agents : String → String → String) (seq : List String) :
    ∀ ctx : String, (chainCum agents seq ctx).map Step.agent = seq := by
  induction seq with
  | nil => intro ctx; rfl
  | cons a rest ih => intro ctx; simp [chainCum, ih]

/-- A non-cumulative chain invokes exactly the declared sequence of agents. -/
theorem chainPiped_map_agent (agents : String → String → String) (seq : List String) :
    ∀ cur : String, (chainPiped agents seq cur).map Step.agent = seq := by
  induction seq with
  | nil => intro cur; rfl
  | cons a rest ih => intro cur; simp [chainPiped, ih]

end Agents

open SecurityCheck Agents Specification Workflows

/-- C1: The security-check CLI main function exits 0 exactly when both
analysis tools ran and exited 0; its exit code is always 0 or 1; when a
required tool binary is absent from PATH it exits 1 without spawning either
analysis command; and when a tool process exits nonzero (the dependency check
having passed), main exits 1 having printed that tool's captured stdout, and
its stderr when nonempty. -/
theorem security_check_main_exit_codes (env : SysEnv) :
    ((security_main env).1 = 0 ↔
      (prospectorCmd ∈ invocations (security_main env).2
        ∧ toolExitZero env prospectorCmd = true)
      ∧ (opengrepCmd ∈ invocations (security_main env).2
        ∧ toolExitZero env opengrepCmd = true))
    ∧ ((security_main env).1 = 0 ∨ (security_main env).1 = 1)
    ∧ (env.onPath "prospector" = false ∨ env.onPath "opengrep" = false →
        (security_main env).1 = 1
        ∧ prospectorCmd ∉ invocations (security_main env).2
        ∧ opengrepCmd ∉ invocations (security_main env).2)
    ∧ (∀ r : ProcResult, (check_dependencies env).1 = true →
        subprocessRun env prospectorCmd = some r → r.returncode ≠ 0 →
        (security_main env).1 = 1
        ∧ Event.print r.stdout ∈ (security_main env).2
        ∧ (r.stderr ≠ "" → Event.print r.stderr ∈ (security_main env).2))
    ∧ (∀ r : ProcResult, (check_dependencies env).1 = true →
        subprocessRun env opengrepCmd = some r → r.returncode ≠ 0 →
        (security_main env).1 = 1
        ∧ Event.print r.stdout ∈ (security_main env).2
        ∧ (r.stderr ≠ "" → Event.print r.stderr ∈ (security_main env).2)) := by
  refine ⟨?_, security_main_exit_zero_or_one env, ?_, ?_, ?_⟩
  · by_cases hd : (check_dependencies env).1 = true
    · rw [security_main_exit_true_iff env hd, run_prospector_true_iff,
        run_opengrep_true_iff, invocations_security_main env hd]
      constructor
      · rintro ⟨h1, h2⟩
        exact ⟨⟨by simp, h1⟩, ⟨by simp, h2⟩⟩
      · rintro ⟨⟨_, h1⟩, _, h2⟩
        exact ⟨h1, h2⟩
    · have hd' : (check_dependencies env).1 = false := by
        cases hcd : (check_dependencies env).1
        · rfl
        · exact absurd hcd hd
      have hm := security_main_deps_false env hd'
      rw [hm.1, hm.2]
      constructor
      · intro h0
        exact absurd h0 (by decide)
      · rintro ⟨⟨h1, _⟩, _⟩
        exact absurd h1 (by decide)
  · intro hmiss
    have hd' : (check_dependencies env).1 = false := by
      cases hcd : (check_dependencies env).1
      · rfl
      · rcases (check_dependencies_true_iff env).mp hcd with ⟨h1, h2⟩
        rcases hmiss with hm | hm
        · rw [h1] at hm; exact absurd hm (by decide)
        · rw [h2] at hm; exact absurd hm (by decide)
    have hm := security_main_deps_false env hd'
    rw [hm.1, hm.2]
    exact ⟨rfl, by decide, by decide⟩
  · intro r hd hr h0
    have ht := run_prospector_fail_trace env r hr h0
    exact ⟨security_main_exit_one_of_prospector_false env hd ht.1,
      mem_security_main_of_prospector env hd _ ht.2.1,
      fun hs => mem_security_main_of_prospector env hd _ (ht.2.2 hs)⟩
  · intro r hd hr h0
    have ht := run_opengrep_fail_trace env r hr h0
    exact ⟨security_main_exit_one_of_opengrep_false env hd ht.1,
      mem_security_main_of_opengrep env hd _ ht.2.1,
      fun hs => mem_security_main_of_opengrep env hd _ (ht.2.2 hs)⟩

/-- C1 witness: on a system with no tools on PATH, main exits 1 without
spawning either analysis command; on a system where the prospector scan exits
1 with stdout PSTDOUT, main exits 1 and prints PSTDOUT. -/
theorem security_check_main_exit_codes_witness :
    ((security_main envNoTools).1 = 1
      ∧ prospectorCmd ∉ invocations (security_main envNoTools).2
      ∧ opengrepCmd ∉ invocations (security_main envNoTools).2)
    ∧ (security_main envProspectorIssues).1 = 1
    ∧ Event.print "PSTDOUT" ∈ (security_main envProspectorIssues).2 := by
  constructor
  · exact (security_check_main_exit_codes envNoTools).2.2.1 (Or.inl rfl)
  · have h := (security_check_main_exit_codes envProspectorIssues).2.2.2.1
      ⟨1, "PSTDOUT", "PSTDERR"⟩ (by decide) (by decide) (by decide)
    exact ⟨h.1, h.2.1⟩

/-- C2: On the documentation_system configuration (min_rating EXCELLENT,
max_refinements 3), an evaluator that rates every candidate GOOD drives the
loop to BudgetExhausted with final generation round index 3 (rounds 0 through
3, four generation rounds), returning the round-3 candidate with its GOOD
rating: all rounds rate GOOD, so best-seen tracking with ties broken toward
the most recent selects the round-3 candidate. -/
theorem evaluator_optimizer_budget_exhausted_after_four_rounds
    (gen : String → Option String → String) (evalr : String → Rating × String)
    (input : String) (h : ∀ c, (evalr c).1 = Rating.GOOD) :
    evaluatorOptimizer gen evalr documentation_system input =
      (LoopOutcome.BudgetExhausted (candidateAt gen evalr input 3) Rating.GOOD, 3) := by
  simp [evaluatorOptimizer, documentation_system, runLoop, updateBest,
    candidateAt, h, Rating.ord]

/-- C2 witness: a concrete always-GOOD evaluator on input x exhausts the
budget at round 3, and the round-3 candidate evaluates to the string xf. -/
theorem evaluator_optimizer_budget_exhausted_after_four_rounds_witness :
    evaluatorOptimizer genW evalGoodW documentation_system "x" =
      (LoopOutcome.BudgetExhausted (candidateAt genW evalGoodW "x" 3) Rating.GOOD, 3)
    ∧ candidateAt genW evalGoodW "x" 3 = "xf" :=
  ⟨evaluator_optimizer_budget_exhausted_after_four_rounds genW evalGoodW "x"
      (fun _ => rfl),
    by decide⟩

/-- C3: In every cumulative chain, each executed step received the original
input followed by the outputs of all prior steps, concatenated in declared
order: wherever the trace splits as pre, step, post, the step input equals
the input concatenated with the outputs of pre. -/
theorem cumulative_chain_step_input_concat (agents : String → String → String)
    (spec : ChainSpec) (input : String) (hc : spec.cumulative = true)
    (pre : List Step) (st : Step) (post : List Step)
    (h : runChain agents spec input = pre ++ st :: post) :
    st.stepInput = input ++ concatAll (pre.map Step.output) := by
  have he : runChain agents spec input = chainCum agents spec.sequence input := by
    simp [runChain, hc]
  rw [he] at h
  exact chainCum_split agents spec.sequence input pre st post h

/-- C3 witness: on the content_pipeline chain with agents producing A, B, C
and original input x, the third step received exactly x followed by A and B,
the string xAB. -/
theorem cumulative_chain_step_input_concat_witness :
    content_pipeline.cumulative = true
    ∧ runChain chainAgentsW content_pipeline "x" =
        [⟨FETCHER, "x", "A"⟩, ⟨ANALYZER, "xA", "B"⟩]
          ++ (⟨SUMMARIZER, "xAB", "C"⟩ : Step) :: []
    ∧ (⟨SUMMARIZER, "xAB", "C"⟩ : Step).stepInput =
        "x" ++ concatAll ([⟨FETCHER, "x", "A"⟩,
          (⟨ANALYZER, "xA", "B"⟩ : Step)].map Step.output)
    ∧ (⟨SUMMARIZER, "xAB", "C"⟩ : Step).stepInput = "xAB" :=
  ⟨rfl, by decide,
    cumulative_chain_step_input_concat chainAgentsW content_pipeline "x" rfl
      [⟨FETCHER, "x", "A"⟩, ⟨ANALYZER, "xA", "B"⟩] ⟨SUMMARIZER, "xAB", "C"⟩ []
      (by decide),
    by decide⟩

/-- C4: The structured-output operation always returns the raw message
unchanged alongside the parse result, and when a required field such as
confidence is absent from the response it returns a null structured result
paired with the unchanged raw message; the operation is a total function, so
no exception escapes and a malformed response cannot abort a workflow. -/
theorem structured_output_null_on_parse_failure :
    (∀ raw : JVal, (structuredSend raw).2 = raw)
    ∧ (∀ fields : List (String × JVal), lookupField "confidence" fields = none →
        structuredSend (JVal.obj fields) = (none, JVal.obj fields)) := by
  constructor
  · intro raw; rfl
  · intro fields h
    simp only [structuredSend, parseAnalysisResult, h]
    rcases lookupField "summary" fields with _ | sv <;>
      rcases lookupField "recommendations" fields with _ | rv <;>
        rcases lookupField "metadata" fields with _ | mv <;> rfl

/-- C4 witness: a concrete response carrying only a summary field has no
confidence field, and the structured send on it returns none paired with the
unchanged raw message. -/
theorem structured_output_null_on_parse_failure_witness :
    lookupField "confidence" missingConfidenceFields = none
    ∧ structuredSend (JVal.obj missingConfidenceFields) =
        (none, JVal.obj missingConfidenceFields) :=
  ⟨rfl, structured_output_null_on_parse_failure.2 missingConfidenceFields rfl⟩

/-- C5: Settings construction (performed once at module import in
settings.py) validates eagerly and succeeds exactly when the required
credential anthropic_api_key is supplied; when it is missing the validation
error is raised at construction; and every other field has a declared
default, so a source supplying nothing but the credential still validates,
producing exactly the defaults. -/
theorem settings_validation_requires_only_api_key :
    (∀ src : ConfigSource,
      (∃ s, loadSettings src = Except.ok s) ↔ src.anthropic_api_key.isSome = true)
    ∧ (∀ src : ConfigSource, src.anthropic_api_key = none →
        loadSettings src = Except.error "validation error: anthropic_api_key missing")
    ∧ loadSettings srcOnlyKey =
        Except.ok { anthropic_api_key := "key", openai_api_key := none,
                    default_model := "anthropic.claude-sonnet-4-0", log_level := "INFO",
                    server_host := "0.0.0.0", server_port := 8080 } := by
  refine ⟨?_, ?_, rfl⟩
  · intro src
    constructor
    · rintro ⟨s, hs⟩
      cases hk : src.anthropic_api_key with
      | none => simp [loadSettings, hk] at hs
      | some k => simp [hk]
    · intro h
      cases hk : src.anthropic_api_key with
      | none => simp [hk] at h
      | some k =>
          exact ⟨{ anthropic_api_key := k, openai_api_key := src.openai_api_key,
                   default_model := src.default_model.getD "anthropic.claude-sonnet-4-0",
                   log_level := src.log_level.getD "INFO",
                   server_host := src.server_host.getD "0.0.0.0",
                   server_port := src.server_port.getD 8080 },
                 by simp [loadSettings, hk]⟩
  · intro src h
    simp [loadSettings, h]

/-- C5 witness: the empty configuration source has no credential, and loading
it fails with the validation error at construction. -/
theorem settings_validation_requires_only_api_key_witness :
    srcNoKey.anthropic_api_key = none
    ∧ loadSettings srcNoKey =
        Except.error "validation error: anthropic_api_key missing" :=
  ⟨rfl, settings_validation_requires_only_api_key.2.1 srcNoKey rfl⟩

/-- C6: The specification agent tool methods document_analysis and
design_system_analyzer are stubs whose outputs do not depend on their inputs:
on any two documents they return the same value, which is one fixed literal
placeholder dictionary; no analysis of the input is performed. -/
theorem specification_tools_are_constant_stubs :
    (∀ d1 d2 : String, document_analysis d1 = document_analysis d2)
    ∧ (∀ d : String, document_analysis d = documentAnalysisStub)
    ∧ (∀ r1 r2 : String, design_system_analyzer r1 = design_system_analyzer r2)
    ∧ (∀ r : String, design_system_analyzer r = designGuidelinesStub) :=
  ⟨fun _ _ => rfl, fun _ => rfl, fun _ _ => rfl, fun _ => rfl⟩

/-- C7: Every chain invokes its agents in exactly the declared ChainSpec
sequence (the execution trace is built step after step, so step i + 1 is
produced only after step i); in particular content_pipeline invokes
url_fetcher, then content_analyzer, then summarizer. -/
theorem chain_invocation_order_matches_sequence :
    (∀ (agents : String → String → String) (spec : ChainSpec) (input : String),
      (runChain agents spec input).map Step.agent = spec.sequence)
    ∧ (∀ (agents : String → String → String) (input : String),
      (runChain agents content_pipeline input).map Step.agent =
        [FETCHER, ANALYZER, SUMMARIZER]) := by
  have hall : ∀ (agents : String → String → String) (spec : ChainSpec) (input : String),
      (runChain agents spec input).map Step.agent = spec.sequence := by
    intro agents spec input
    unfold runChain
    cases hc : spec.cumulative <;>
      simp [hc, chainCum_map_agent, chainPiped_map_agent]
  exact ⟨hall, fun agents input => hall agents content_pipeline input⟩

/-- C8: Any evaluator-optimizer loop whose round-0 candidate already rates at
or above the configured minimum terminates immediately in Completed, at final
round index 0 (zero refinement rounds), returning that candidate and its
rating. -/
theorem evaluator_optimizer_completes_round_zero
    (gen : String → Option String → String) (evalr : String → Rating × String)
    (spec : EvaluatorOptimizerSpec) (input : String)
    (h : spec.min_rating.ord ≤ (evalr (gen input none)).1.ord) :
    evaluatorOptimizer gen evalr spec input =
      (LoopOutcome.Completed (gen input none) (evalr (gen input none)).1, 0) := by
  unfold evaluatorOptimizer
  cases hm : spec.max_refinements with
  | zero => simp [runLoop, h]
  | succ n => simp [runLoop, h]

/-- C8 witness: an evaluator rating everything EXCELLENT meets the
documentation_system minimum at round 0, and the loop returns Completed with
the round-0 candidate x and zero refinements. -/
theorem evaluator_optimizer_completes_round_zero_witness :
    documentation_system.min_rating.ord ≤ (evalExcW (genW "x" none)).1.ord
    ∧ evaluatorOptimizer genW evalExcW documentation_system "x" =
        (LoopOutcome.Completed (genW "x" none) (evalExcW (genW "x" none)).1, 0)
    ∧ evaluatorOptimizer genW evalExcW documentation_system "x" =
        (LoopOutcome.Completed "x" Rating.EXCELLENT, 0) :=
  ⟨by decide,
    evaluator_optimizer_completes_round_zero genW evalExcW documentation_system "x"
      (by decide),
    by decide⟩

/-- C9: Running workflows.py as a script hits the main guard calling
asyncio.run(main()) with no binding for the name asyncio in the module
globals, so the guard raises NameError for asyncio before any workflow
runs. -/
theorem workflows_script_raises_name_error :
    runWorkflowsMainBlock = MainBlockResult.nameError "asyncio"
    ∧ workflowsGlobalNames.contains "asyncio" = false :=
  ⟨rfl, by decide⟩

/-- C10: Whenever the dependency check passes, main spawns both analysis
commands unconditionally and in order: the invocation trace is exactly the
two dependency probes followed by the prospector command and then the
opengrep command, for every possible outcome of the scans (so the opengrep
scan runs even when the prospector scan failed). -/
theorem security_check_runs_both_tools (env : SysEnv)
    (h : (check_dependencies env).1 = true) :
    invocations (security_main env).2 =
      [["prospector", "--help"], ["opengrep", "--help"], prospectorCmd, opengrepCmd] :=
  invocations_security_main env h

/-- C10 witness: on a system with every tool present, the dependency check
passes and main spawns the two probes, then prospector, then opengrep. -/
theorem security_check_runs_both_tools_witness :
    (check_dependencies envAllOk).1 = true
    ∧ invocations (security_main envAllOk).2 =
        [["prospector", "--help"], ["opengrep", "--help"], prospectorCmd, opengrepCmd] :=
  ⟨by decide, security_check_runs_both_tools envAllOk (by decide)⟩
